import Mathlib

/-!
Shallow embedding of the offline/sync core of the nh-masjeed PWA:
the IndexedDB durable store (`src/utils/indexedDB.ts`), the offline
write-queue manager (`src/utils/offlineQueue.ts`), the app connectivity
store (`src/App.tsx`) and the service-worker fetch interceptor (`sw.js`).
Timestamps are `Nat` milliseconds; asynchronous effects are modelled by
explicit state passing, network calls by oracle parameters.
-/

namespace Masjeed

/-- Record stored in an IndexedDB object store.  The source spreads the
payload object and injects `timestamp` and `expiresAt`
(`indexedDB.ts` lines 78-82); here the payload keeps its own fields in
`data` and the injected fields live beside it. -/
structure Rec (α : Type) where
  id : String
  data : α
  timestamp : Nat
  expiresAt : Option Nat
deriving DecidableEq, Repr

/-- Lookup by `id`: first record whose id matches. -/
def findById {α : Type} : List (Rec α) → String → Option (Rec α)
  | [], _ => none
  | x :: xs, i => if x.id = i then some x else findById xs i

/-- Remove every record with the given id (ids are unique under IndexedDB
key semantics, so at most one is removed in reachable states). -/
def deleteById {α : Type} : List (Rec α) → String → List (Rec α)
  | [], _ => []
  | x :: xs, i => if x.id = i then deleteById xs i else x :: deleteById xs i

/-- IndexedDB `put` semantics: replace the record with the same key, or
append a fresh one. -/
def upsertById {α : Type} : List (Rec α) → Rec α → List (Rec α)
  | [], r => [r]
  | x :: xs, r => if x.id = r.id then r :: xs else x :: upsertById xs r

/-- Expiry injected by `store`: `ttlMinutes ? Date.now() + ttlMinutes * 60 * 1000
: undefined` (`indexedDB.ts` line 81); a `ttlMinutes` of `0` is falsy in JS
and yields no expiry. -/
def ttlExpiry (now : Nat) : Option Nat → Option Nat
  | none => none
  | some t => if t = 0 then none else some (now + t * 60000)

/-- Expiry check `result.expiresAt && Date.now() > result.expiresAt`
(`indexedDB.ts` line 110); `expiresAt = 0` is falsy in JS and never counts
as expired. -/
def isExpired {α : Type} (now : Nat) (r : Rec α) : Bool :=
  match r.expiresAt with
  | none => false
  | some e => (!(e == 0)) && decide (e < now)

/-- Embeds `IndexedDBManager.store`: upsert by id with `timestamp` and `expiresAt`
injected (`indexedDB.ts` lines 67-88). -/
def idbStore {α : Type} (l : List (Rec α)) (r : Rec α) (now : Nat)
    (ttl : Option Nat) : List (Rec α) :=
  upsertById l { r with timestamp := now, expiresAt := ttlExpiry now ttl }

/-- Embeds `IndexedDBManager.get`: return the record, or delete it and return
nothing when it is past `expiresAt` (`indexedDB.ts` lines 90-119).  The
second component is the object store after the lazy purge. -/
def idbGet {α : Type} (l : List (Rec α)) (i : String) (now : Nat) :
    Option (Rec α) × List (Rec α) :=
  match findById l i with
  | none => (none, l)
  | some r => if isExpired now r then (none, deleteById l i) else (some r, l)

/-- Embeds `IndexedDBManager.getAll`: filter out (and delete) expired records
(`indexedDB.ts` lines 121-144). -/
def idbGetAll {α : Type} (l : List (Rec α)) (now : Nat) :
    List (Rec α) × List (Rec α) :=
  let keep := l.filter (fun r => !isExpired now r)
  (keep, keep)

/-- Database: named object stores, as created by `onupgradeneeded`.  A
store name present in the list is a created collection. -/
abbrev DB := List (String × List (Rec String))

/-- Find a named object store. -/
def dbFind : DB → String → Option (List (Rec String))
  | [], _ => none
  | (n, l) :: rest, c => if n = c then some l else dbFind rest c

/-- Replace the contents of a named object store. -/
def dbUpdate : DB → String → List (Rec String) → DB
  | [], _, _ => []
  | (n, l0) :: rest, c, l =>
    if n = c then (n, l) :: rest else (n, l0) :: dbUpdate rest c l

/-- Object stores created by `IndexedDBManager.init` (`indexedDB.ts`
lines 41-63): `userData` is declared in `DBSchema` but never created. -/
def initStores : List String :=
  ["prayerTimes", "events", "announcements", "donations", "community",
   "offlineQueue"]

/-- Fresh database as produced by `init()` on first open. -/
def initDB : DB := initStores.map (fun n => (n, []))

/-- Embeds `store(collection, record)` at database level: a transaction on a
store that was never created throws `NotFoundError`. -/
def dbPut (db : DB) (c : String) (r : Rec String) (now : Nat)
    (ttl : Option Nat) : Except String DB :=
  match dbFind db c with
  | none => Except.error "NotFoundError"
  | some l => Except.ok (dbUpdate db c (idbStore l r now ttl))

/-- Embeds `get(collection, id)` at database level, with the lazy expiry purge. -/
def dbGet (db : DB) (c : String) (i : String) (now : Nat) :
    Except String (Option (Rec String) × DB) :=
  match dbFind db c with
  | none => Except.error "NotFoundError"
  | some l =>
    let p := idbGet l i now
    Except.ok (p.1, dbUpdate db c p.2)

/-- Embeds `getAll(collection)` at database level, with the lazy expiry purge. -/
def dbGetAll (db : DB) (c : String) (now : Nat) :
    Except String (List (Rec String) × DB) :=
  match dbFind db c with
  | none => Except.error "NotFoundError"
  | some l =>
    let p := idbGetAll l now
    Except.ok (p.1, dbUpdate db c p.2)

/-- Category tag of a queued request (`type` field of `QueuedRequest`). -/
inductive Category where
  | donations
  | registrations
  | announcements
  | general
deriving DecidableEq, Repr

/-- Payload of a `QueuedRequest` record (`offlineQueue.ts` lines 3-13):
the serialized body is kept as an optional string, headers as a name-value
list.  `maxRetries` is optional; service-worker queue items omit it. -/
structure QPayload where
  url : String
  method : String
  body : Option String
  headers : List (String × String)
  retryCount : Nat
  maxRetries : Option Nat
  qtype : Category
deriving DecidableEq, Repr

/-- Contents of the `offlineQueue` object store. -/
abbrev Queue := List (Rec QPayload)

/-- Retry configuration (`offlineQueue.ts` lines 15-20). -/
structure RetryConfig where
  maxRetries : Nat
  baseDelay : Nat
  maxDelay : Nat
  backoffMultiplier : Nat
deriving DecidableEq, Repr

/-- Defaults from `offlineQueue.ts` lines 23-28. -/
def defaultRetryConfig : RetryConfig :=
  { maxRetries := 3, baseDelay := 1000, maxDelay := 30000,
    backoffMultiplier := 2 }

/-- Effective retry limit `item.maxRetries || this.defaultRetryConfig.maxRetries`
(`offlineQueue.ts` line 143): an absent field falls back to the default,
and so does an explicit `0`, which is falsy in JS. -/
def effMaxRetries (r : Rec QPayload) : Nat :=
  match r.data.maxRetries with
  | none => defaultRetryConfig.maxRetries
  | some m => if m = 0 then defaultRetryConfig.maxRetries else m

/-- Embeds `calculateRetryDelay` (`offlineQueue.ts` lines 161-165); meaningful for
`retryCount >= 1` (the only call sites), where `Math.pow` agrees with
natural-number exponentiation. -/
def calculateRetryDelay (retryCount : Nat) : Nat :=
  let delay := defaultRetryConfig.baseDelay *
    defaultRetryConfig.backoffMultiplier ^ (retryCount - 1)
  min delay defaultRetryConfig.maxDelay

/-- Observable effects of the queue manager: the `offlineQueueSuccess` and
`offlineQueueFailure` custom events and `scheduleRetry` timer requests. -/
inductive QueueEvent where
  | success (id : String) (qtype : Category) (url method : String)
  | failure (id : String) (qtype : Category) (url method : String)
      (retryCount : Nat)
  | scheduledRetry (id : String) (delay : Nat)
deriving DecidableEq, Repr

/-- Outbound HTTP request as assembled by `executeRequest`. -/
structure HttpRequest where
  method : String
  url : String
  headers : List (String × String)
  body : Option String
deriving DecidableEq, Repr

/-- JS object spread `{base..., extra...}`: base keys (possibly overridden
by extra) in base order, then extra keys not in base, in extra order. -/
def mergeHeaders (base extra : List (String × String)) :
    List (String × String) :=
  base.map (fun kv =>
    match extra.lookup kv.1 with
    | some v => (kv.1, v)
    | none => kv) ++
  extra.filter (fun kv => !(base.any (fun b => b.1 == kv.1)))

/-- JS truthiness of the stored body (`item.body && ...`,
`offlineQueue.ts` line 135): an empty string is falsy. -/
def bodyTruthy : Option String → Bool
  | none => false
  | some s => !(s == "")

/-- Embeds `OfflineQueueManager.executeRequest` (`offlineQueue.ts` lines 126-140):
re-issues the stored request with a default `Content-Type` header merged
under the stored headers, and the body only for truthy bodies on non-GET
methods. -/
def executeRequest (item : Rec QPayload) : HttpRequest :=
  { method := item.data.method,
    url := item.data.url,
    headers := mergeHeaders [("Content-Type", "application/json")]
      item.data.headers,
    body := if bodyTruthy item.data.body && !(item.data.method == "GET")
      then item.data.body else none }

/-- Result of one `fetch`: an HTTP response with a status, or a network
error rejection. -/
inductive FetchOutcome where
  | response (status : Nat)
  | netError (msg : String)
deriving DecidableEq, Repr

/-- Embeds `Response.ok`: status in the 2xx range. -/
def respOk (status : Nat) : Bool :=
  decide (200 ≤ status) && decide (status ≤ 299)

/-- Network oracle for queue drains: maps the re-issued request to the
outcome of its `fetch`. -/
abbrev FetchOracle := HttpRequest → FetchOutcome

/-- Embeds `item.retryCount += 1` (`offlineQueue.ts` line 153). -/
def bumpRetry (item : Rec QPayload) : Rec QPayload :=
  { item with data := { item.data with
      retryCount := item.data.retryCount + 1 } }

/-- Embeds `OfflineQueueManager.handleRetry` (`offlineQueue.ts` lines 142-159):
at the effective limit, remove the item and emit the failure event;
otherwise increment `retryCount`, persist (no TTL) and schedule the
backoff retry. -/
def handleRetry (q : Queue) (item : Rec QPayload) (now : Nat) :
    Queue × List QueueEvent :=
  if effMaxRetries item ≤ item.data.retryCount then
    (deleteById q item.id,
     [QueueEvent.failure item.id item.data.qtype item.data.url
        item.data.method item.data.retryCount])
  else
    (idbStore q (bumpRetry item) now none,
     [QueueEvent.scheduledRetry (bumpRetry item).id
        (calculateRetryDelay (bumpRetry item).data.retryCount)])

/-- Embeds `OfflineQueueManager.processQueueItem` (`offlineQueue.ts` lines 109-124):
on a 2xx response remove the item and emit the success event, otherwise
(non-2xx or network error) take the retry path. -/
def processQueueItem (q : Queue) (item : Rec QPayload)
    (oracle : FetchOracle) (now : Nat) : Queue × List QueueEvent :=
  match oracle (executeRequest item) with
  | FetchOutcome.response st =>
    if respOk st then
      (deleteById q item.id,
       [QueueEvent.success item.id item.data.qtype item.data.url
          item.data.method])
    else handleRetry q item now
  | FetchOutcome.netError _ => handleRetry q item now

/-- Embeds `OfflineQueueManager.addToQueue` (`offlineQueue.ts` lines 58-89):
create the item with `retryCount = 0` and the merged retry config,
persist it without a TTL, and when online schedule an immediate attempt.
The JSON serialization of the body is modelled as the already-serialized
optional string, and the generated id is passed in as `fid`. -/
def addToQueue (q : Queue) (url method : String) (body : Option String)
    (headers : List (String × String)) (qtype : Category)
    (cfgMaxRetries : Option Nat) (isOnline : Bool) (now : Nat)
    (fid : String) : Queue × List QueueEvent :=
  let item : Rec QPayload :=
    { id := fid,
      data :=
        { url := url, method := method, body := body, headers := headers,
          retryCount := 0,
          maxRetries := some (cfgMaxRetries.getD
            defaultRetryConfig.maxRetries),
          qtype := qtype },
      timestamp := now, expiresAt := none }
  (idbStore q item now none,
   if isOnline then [QueueEvent.scheduledRetry item.id 0] else [])

/-- Embeds `OfflineQueueManager.processQueue` (`offlineQueue.ts` lines 91-107):
a no-op while offline; otherwise `getAll` the persisted items and attempt
each sequentially in store order. -/
def processQueue (isOnline : Bool) (q : Queue) (oracle : FetchOracle)
    (now : Nat) : Queue × List QueueEvent :=
  if !isOnline then (q, [])
  else
    let p := idbGetAll q now
    p.1.foldl
      (fun acc it =>
        let r := processQueueItem acc.1 it oracle now
        (r.1, acc.2 ++ r.2))
      (p.2, [])

/-- Offline slice of the auth store (`App.tsx` lines 418-424, 460-466). -/
structure OfflineState where
  isOnline : Bool
  syncInProgress : Bool
  queuedRequests : Nat
  lastSyncTime : Option Nat
deriving DecidableEq, Repr

/-- Page-side state relevant to connectivity: the store's offline slice,
the queue manager's own `isOnline` flag, and the persisted queue. -/
structure AppState where
  offline : OfflineState
  mgrOnline : Bool
  queue : Queue
deriving DecidableEq, Repr

/-- Embeds `syncOfflineData` (`App.tsx` lines 668-707): early return when offline
or when `syncInProgress` is set; otherwise set the guard, run
`processQueue`, refresh the queued-request count and record the sync
time.  The last component counts the `processQueue` invocations
performed. -/
def syncOfflineData (s : AppState) (oracle : FetchOracle) (now : Nat) :
    AppState × List QueueEvent × Nat :=
  if !s.offline.isOnline || s.offline.syncInProgress then (s, [], 0)
  else
    let p := processQueue s.mgrOnline s.queue oracle now
    ({ s with
        queue := p.1,
        offline := { s.offline with
          syncInProgress := false,
          queuedRequests := (idbGetAll p.1 now).1.length,
          lastSyncTime := some now } },
     p.2, 1)

/-- Embeds `setOnlineStatus` (`App.tsx` lines 640-652): record the flag and, when
transitioning to online, invoke `syncOfflineData`. -/
def setOnlineStatus (s : AppState) (b : Bool) (oracle : FetchOracle)
    (now : Nat) : AppState × List QueueEvent × Nat :=
  let s1 : AppState := { s with offline := { s.offline with isOnline := b } }
  if b then syncOfflineData s1 oracle now else (s1, [], 0)

/-- The queue manager's own `online` listener (`offlineQueue.ts` lines
39-43): set its flag and call `processQueue` directly, with no
`syncInProgress` guard. -/
def managerOnlineHandler (s : AppState) (oracle : FetchOracle)
    (now : Nat) : AppState × List QueueEvent × Nat :=
  let s1 : AppState := { s with mgrOnline := true }
  let p := processQueue true s1.queue oracle now
  ({ s1 with queue := p.1 }, p.2, 1)

/-- A browser `online` event runs both registered listeners: the manager
singleton's handler (registered at module import, `offlineQueue.ts`
lines 38-43) and the App effect's `handleOnline` (`App.tsx` lines 37-41),
which calls `setOnlineStatus(true)` and then `updateQueuedRequests`.
The last component counts the `processQueue` invocations performed. -/
def windowOnlineEvent (s : AppState) (oracle : FetchOracle) (now : Nat) :
    AppState × List QueueEvent × Nat :=
  let r1 := managerOnlineHandler s oracle now
  let r2 := setOnlineStatus r1.1 true oracle now
  let s3 : AppState := { r2.1 with offline := { r2.1.offline with
    queuedRequests := (idbGetAll r2.1.queue now).1.length } }
  (s3, r1.2.1 ++ r2.2.1, r1.2.2 + r2.2.2)

/-- JSON bodies synthesized by the service worker, by their fields. -/
structure JsonBody where
  success : Option Bool := none
  error : Option String := none
  offline : Option Bool := none
  queued : Option Bool := none
  data : Option String := none
deriving DecidableEq, Repr

/-- Body of a service-worker response: a network body verbatim, a
synthesized JSON object, or an IndexedDB snapshot payload. -/
inductive RespBody where
  | network (payload : String)
  | json (j : JsonBody)
  | idbData (payload : String)
deriving DecidableEq, Repr

/-- Response delivered by the service worker to the page. -/
structure SWResponse where
  status : Nat
  body : RespBody
  fromCacheHeader : Bool
deriving DecidableEq, Repr

/-- Intercepted request: pathname, full url, method, body text (empty for
bodyless requests, as `request.text()` resolves to the empty string) and
header entries. -/
structure SWRequest where
  pathname : String
  url : String
  method : String
  bodyText : String
  headers : List (String × String)
deriving DecidableEq, Repr

/-- Resolution of `fetch(request)` inside the service worker. -/
inductive NetResult where
  | response (status : Nat) (payload : String)
  | failure (err : String)
deriving DecidableEq, Repr

/-- Environment of one interception: the network outcome, the Cache API
lookup, and the (already expiry-checked) IndexedDB snapshot payload. -/
structure SWEnv where
  net : NetResult
  cacheMatch : Option SWResponse
  idbSnapshot : Option String
deriving DecidableEq, Repr

/-- Outcome of `handleApiRequest`: the response, the offline queue after
any enqueue, and the snapshot write performed on a successful read
(`storeApiDataInIndexedDB`), as store-name and payload. -/
structure ApiOutcome where
  resp : SWResponse
  queue : Queue
  snapshotWrite : Option (String × String)
deriving DecidableEq, Repr

/-- Character-list version of `startsWith` (first argument is the
needle), kept recursive so proofs can evaluate it. -/
def charsStartWith : List Char → List Char → Bool
  | [], _ => true
  | _ :: _, [] => false
  | p :: ps, c :: cs => (p == c) && charsStartWith ps cs

/-- Substring occurrence over character lists (first argument is the
needle). -/
def charsIncludes (needle : List Char) : List Char → Bool
  | [] => charsStartWith needle []
  | c :: rest => charsStartWith needle (c :: rest) || charsIncludes needle rest

/-- JS `String.prototype.startsWith`. -/
def strStartsWith (s pre : String) : Bool :=
  charsStartWith pre.data s.data

/-- JS `String.prototype.includes`. -/
def strIncludes (s sub : String) : Bool :=
  charsIncludes sub.data s.data

/-- Embeds `['POST', 'PUT', 'PATCH', 'DELETE'].includes(request.method)`
(`sw.js` line 140). -/
def isWriteOp (m : String) : Bool :=
  (["POST", "PUT", "PATCH", "DELETE"]).contains m

/-- Embeds `url.pathname.startsWith('/api/auth/')` (`sw.js` line 141). -/
def isAuthEndpoint (p : String) : Bool :=
  strStartsWith p "/api/auth/"

/-- Embeds `getRequestType` (`sw.js` lines 235-240). -/
def getRequestType (p : String) : Category :=
  if strIncludes p "/donations" then Category.donations
  else if strIncludes p "/events" && strIncludes p "/register" then
    Category.registrations
  else if strIncludes p "/announcements" then Category.announcements
  else Category.general

/-- Store name chosen by `storeApiDataInIndexedDB` and
`getApiDataFromIndexedDB` (`sw.js` lines 246-255, 279-287). -/
def storeNameForPath (p : String) : String :=
  if strIncludes p "/prayers" then "prayerTimes"
  else if strIncludes p "/events" then "events"
  else if strIncludes p "/announcements" then "announcements"
  else "general"

/-- Embeds `getOfflineResponse` (`sw.js` lines 322-380): resource-specific 503
bodies; the auth branch carries no `offline` field at all. -/
def getOfflineResponse (p : String) : SWResponse :=
  if isAuthEndpoint p then
    { status := 503,
      body := RespBody.json
        { success := some false,
          error := some "Authentication service unavailable" },
      fromCacheHeader := false }
  else if strIncludes p "/prayers" then
    { status := 503,
      body := RespBody.json
        { success := some false,
          error := some "Prayer times not available offline",
          offline := some true, data := some "null" },
      fromCacheHeader := false }
  else if strIncludes p "/events" then
    { status := 503,
      body := RespBody.json
        { success := some false,
          error := some "Events not available offline",
          offline := some true, data := some "[]" },
      fromCacheHeader := false }
  else if strIncludes p "/announcements" then
    { status := 503,
      body := RespBody.json
        { success := some false,
          error := some "Announcements not available offline",
          offline := some true, data := some "[]" },
      fromCacheHeader := false }
  else
    { status := 503,
      body := RespBody.json
        { success := some false,
          error := some "API not available offline",
          offline := some true },
      fromCacheHeader := false }

/-- Synthetic 202 response of the write-failure path (`sw.js` lines
177-185). -/
def queued202Resp : SWResponse :=
  { status := 202,
    body := RespBody.json
      { success := some false,
        error := some "Request queued for when back online",
        offline := some true, queued := some true },
    fromCacheHeader := false }

/-- Synthetic 503 substituted by the fetch listener when an auth request
rejects (`sw.js` lines 78-88); note `offline: false`. -/
def authUnavailableResp : SWResponse :=
  { status := 503,
    body := RespBody.json
      { success := some false,
        error := some "Authentication service unavailable",
        offline := some false },
    fromCacheHeader := false }

/-- The `offline` field of a synthesized JSON body, if any. -/
def jsonOffline (r : SWResponse) : Option Bool :=
  match r.body with
  | RespBody.json j => j.offline
  | _ => none

/-- The `queued` field of a synthesized JSON body, if any. -/
def jsonQueued (r : SWResponse) : Option Bool :=
  match r.body with
  | RespBody.json j => j.queued
  | _ => none

/-- Failure of the network attempt in the sense the interceptor uses:
a rejected `fetch` or a non-2xx response (`NetworkError` in the spec). -/
def netFails : NetResult → Bool
  | NetResult.response st _ => !respOk st
  | NetResult.failure _ => true

/-- Queue item built by `addToOfflineQueue` from the intercepted request
(`sw.js` lines 167-175, 637-642): body text captured except for DELETE,
headers from `Object.fromEntries(request.headers.entries())`, no
`maxRetries` and no TTL. -/
def mkSwQueueItem (req : SWRequest) (now : Nat) (fid : String) :
    Rec QPayload :=
  { id := fid,
    data :=
      { url := req.url, method := req.method,
        body := if req.method == "DELETE" then none
          else some req.bodyText,
        headers := req.headers,
        retryCount := 0, maxRetries := none,
        qtype := getRequestType req.pathname },
    timestamp := now, expiresAt := none }

/-- Write-failure path of `handleApiRequest` (`sw.js` lines 164-186):
build the queue item from the request, append it to the `offlineQueue`
store (`store.add` with a fresh id), and answer with the synthetic 202
queued response. -/
def swQueueWrite (req : SWRequest) (q : Queue) (now : Nat)
    (fid : String) : SWResponse × Queue :=
  (queued202Resp, q ++ [mkSwQueueItem req now fid])

/-- Read-failure fallbacks of `handleApiRequest` (`sw.js` lines 206-231):
the Cache API match, then the IndexedDB snapshot, then the
resource-specific offline response. -/
def swReadFallback (req : SWRequest) (env : SWEnv) : SWResponse :=
  match env.cacheMatch with
  | some c => { c with fromCacheHeader := true }
  | none =>
    match env.idbSnapshot with
    | some d =>
      { status := 200, body := RespBody.idbData d,
        fromCacheHeader := false }
    | none => getOfflineResponse req.pathname

/-- Verbatim network response, as `handleApiRequest` returns it. -/
def netResp (st : Nat) (payload : String) : SWResponse :=
  { status := st, body := RespBody.network payload,
    fromCacheHeader := false }

/-- Core interception routine `handleApiRequest` (`sw.js` lines 138-232).
Auth endpoints re-throw the network failure; non-auth writes fall back to
the offline queue; non-auth reads cache successful responses and fall
back through `swReadFallback`. -/
def handleApiRequest (req : SWRequest) (env : SWEnv) (q : Queue)
    (now : Nat) (fid : String) : Except String ApiOutcome :=
  if isAuthEndpoint req.pathname then
    match env.net with
    | NetResult.response st payload =>
      Except.ok
        { resp := netResp st payload, queue := q, snapshotWrite := none }
    | NetResult.failure e => Except.error e
  else if isWriteOp req.method then
    match env.net with
    | NetResult.response st payload =>
      if respOk st then
        Except.ok
          { resp := netResp st payload, queue := q, snapshotWrite := none }
      else
        let p := swQueueWrite req q now fid
        Except.ok { resp := p.1, queue := p.2, snapshotWrite := none }
    | NetResult.failure _ =>
      let p := swQueueWrite req q now fid
      Except.ok { resp := p.1, queue := p.2, snapshotWrite := none }
  else
    match env.net with
    | NetResult.response st payload =>
      if respOk st then
        Except.ok
          { resp := netResp st payload, queue := q,
            snapshotWrite := some (storeNameForPath req.pathname, payload) }
      else
        Except.ok
          { resp := swReadFallback req env, queue := q,
            snapshotWrite := none }
    | NetResult.failure _ =>
      Except.ok
        { resp := swReadFallback req env, queue := q,
          snapshotWrite := none }

/-- The `fetch` listener wrapper for `/api/` requests (`sw.js` lines
74-94): a rejection from `handleApiRequest` is replaced, for auth
endpoints, by a synthetic 503 response with `offline: false`; for any
other endpoint it is re-thrown. -/
def fetchListenerApi (req : SWRequest) (env : SWEnv) (q : Queue)
    (now : Nat) (fid : String) : Except String ApiOutcome :=
  match handleApiRequest req env q now fid with
  | Except.ok o => Except.ok o
  | Except.error e =>
    if isAuthEndpoint req.pathname then
      Except.ok
        { resp := authUnavailableResp, queue := q, snapshotWrite := none }
    else Except.error e

/-! Helper lemmas about the store primitives. -/

theorem findById_upsertById {α : Type} (l : List (Rec α)) (r : Rec α) :
    findById (upsertById l r) r.id = some r := by
  induction l with
  | nil => simp [upsertById, findById]
  | cons x xs ih =>
    by_cases h : x.id = r.id
    · simp [upsertById, findById, h]
    · simp [upsertById, findById, h, ih]

theorem mem_upsertById {α : Type} {l : List (Rec α)} {r x : Rec α}
    (h : x ∈ upsertById l r) : x = r ∨ x ∈ l := by
  induction l with
  | nil => simpa [upsertById] using h
  | cons y ys ih =>
    by_cases hy : y.id = r.id
    · simp only [upsertById, if_pos hy, List.mem_cons] at h
      rcases h with h | h
      · exact Or.inl h
      · exact Or.inr (List.mem_cons_of_mem _ h)
    · simp only [upsertById, if_neg hy, List.mem_cons] at h
      rcases h with h | h
      · exact Or.inr (by simp [h])
      · rcases ih h with h2 | h2
        · exact Or.inl h2
        · exact Or.inr (List.mem_cons_of_mem _ h2)

theorem mem_deleteById {α : Type} {l : List (Rec α)} {i : String}
    {x : Rec α} (h : x ∈ deleteById l i) : x ∈ l ∧ x.id ≠ i := by
  induction l with
  | nil => simp [deleteById] at h
  | cons y ys ih =>
    by_cases hy : y.id = i
    · simp only [deleteById, if_pos hy] at h
      rcases ih h with ⟨h1, h2⟩
      exact ⟨List.mem_cons_of_mem _ h1, h2⟩
    · simp only [deleteById, if_neg hy, List.mem_cons] at h
      rcases h with h | h
      · exact ⟨by simp [h], by simpa [h] using hy⟩
      · rcases ih h with ⟨h1, h2⟩
        exact ⟨List.mem_cons_of_mem _ h1, h2⟩

theorem findById_some {α : Type} {l : List (Rec α)} {i : String}
    {r : Rec α} (h : findById l i = some r) : r ∈ l ∧ r.id = i := by
  induction l with
  | nil => simp [findById] at h
  | cons y ys ih =>
    by_cases hy : y.id = i
    · simp only [findById, if_pos hy, Option.some.injEq] at h
      exact ⟨by simp [← h], by rw [← h]; exact hy⟩
    · simp only [findById, if_neg hy] at h
      rcases ih h with ⟨h1, h2⟩
      exact ⟨List.mem_cons_of_mem _ h1, h2⟩

theorem uniqueId_of_nodup {α : Type} {l : List (Rec α)} {a b : Rec α}
    (hnd : (l.map (fun x => x.id)).Nodup) (ha : a ∈ l) (hb : b ∈ l)
    (hid : a.id = b.id) : a = b := by
  induction l with
  | nil => simp at ha
  | cons y ys ih =>
    simp only [List.map_cons, List.nodup_cons] at hnd
    rcases hnd with ⟨hy, hys⟩
    rcases List.mem_cons.mp ha with ha1 | ha1 <;>
      rcases List.mem_cons.mp hb with hb1 | hb1
    · rw [ha1, hb1]
    · refine absurd ?_ hy
      rw [← ha1, hid]
      exact List.mem_map_of_mem _ hb1
    · refine absurd ?_ hy
      rw [← hb1, ← hid]
      exact List.mem_map_of_mem _ ha1
    · exact ih hys ha1 hb1

theorem findById_of_mem {α : Type} {l : List (Rec α)} {r : Rec α}
    (hnd : (l.map (fun x => x.id)).Nodup) (hmem : r ∈ l) :
    findById l r.id = some r := by
  induction l with
  | nil => simp at hmem
  | cons y ys ih =>
    simp only [List.map_cons, List.nodup_cons] at hnd
    rcases hnd with ⟨hy, hys⟩
    rcases List.mem_cons.mp hmem with h | h
    · simp [findById, h]
    · have hne : y.id ≠ r.id := by
        intro he
        exact hy (he ▸ List.mem_map_of_mem _ h)
      simp [findById, hne, ih hys h]

theorem isExpired_of_none {α : Type} {r : Rec α} (now : Nat)
    (h : r.expiresAt = none) : isExpired now r = false := by
  simp [isExpired, h]

theorem isExpired_of_past {α : Type} {r : Rec α} {e now : Nat}
    (h : r.expiresAt = some e) (h0 : 0 < e) (hlt : e < now) :
    isExpired now r = true := by
  simp [isExpired, h, hlt, Nat.pos_iff_ne_zero.mp h0]

theorem isExpired_after_store {α : Type} (r : Rec α) (now : Nat)
    (ttl : Option Nat) :
    isExpired now { r with timestamp := now, expiresAt := ttlExpiry now ttl }
      = false := by
  cases ttl with
  | none => simp [isExpired, ttlExpiry]
  | some t =>
    by_cases ht : t = 0
    · simp [isExpired, ttlExpiry, ht]
    · simp only [isExpired, ttlExpiry, if_neg ht]
      have : ¬ (now + t * 60000 < now) := by omega
      simp [this]

theorem dbFind_dbUpdate_self {db : DB} {c : String}
    {l0 : List (Rec String)} (h : dbFind db c = some l0)
    (l : List (Rec String)) : dbFind (dbUpdate db c l) c = some l := by
  induction db with
  | nil => simp [dbFind] at h
  | cons p rest ih =>
    by_cases hp : p.1 = c
    · simp [dbUpdate, dbFind, hp]
    · simp only [dbFind, if_neg hp] at h
      simp [dbUpdate, dbFind, hp, ih h]

theorem mem_idbStore {α : Type} {l : List (Rec α)} {r x : Rec α}
    {now : Nat} {ttl : Option Nat} (h : x ∈ idbStore l r now ttl) :
    x = { r with timestamp := now, expiresAt := ttlExpiry now ttl } ∨
      x ∈ l :=
  mem_upsertById h

theorem idbGetAll_of_none_expiry {α : Type} {l : List (Rec α)} (now : Nat)
    (h : ∀ x ∈ l, x.expiresAt = none) : idbGetAll l now = (l, l) := by
  have hf : l.filter (fun r => !isExpired now r) = l := by
    apply List.filter_eq_self.mpr
    intro a ha
    simp [isExpired_of_none now (h a ha)]
  simp [idbGetAll, hf]

/-! Claim theorems. -/

/-- C4: for every `retryCount` n >= 1, the computed retry delay equals
`min(baseDelay * backoffMultiplier^(n-1), maxDelay)`; with the defaults
`baseDelay=1000`, `backoffMultiplier=2`, `maxDelay=30000` the delays for
`retryCount` 1, 2, 3 are 1000, 2000 and 4000 milliseconds. -/
theorem C4_backoff_schedule (n : Nat) (_h : 1 ≤ n) :
    calculateRetryDelay n = min (1000 * 2 ^ (n - 1)) 30000 ∧
    calculateRetryDelay 1 = 1000 ∧ calculateRetryDelay 2 = 2000 ∧
    calculateRetryDelay 3 = 4000 :=
  ⟨rfl, by decide, by decide, by decide⟩

/-- Witness for C4 at `retryCount = 3`. -/
theorem C4_backoff_schedule_witness :
    1 ≤ 3 ∧
    (calculateRetryDelay 3 = min (1000 * 2 ^ (3 - 1)) 30000 ∧
     calculateRetryDelay 1 = 1000 ∧ calculateRetryDelay 2 = 2000 ∧
     calculateRetryDelay 3 = 4000) :=
  ⟨by decide, C4_backoff_schedule 3 (by decide)⟩

/-- C8 (code bug): `init()` creates object stores for six of the seven
collections but never `userData`, although `DBSchema` declares it and
`App.tsx` stores the current user there; a `put` on `userData` therefore
raises `NotFoundError` instead of creating the collection implicitly,
while a `put` on the six created collections (here `events`) succeeds on
a fresh database. -/
theorem C8_userData_never_created :
    dbPut initDB "userData"
        { id := "currentUser", data := "user-payload", timestamp := 0,
          expiresAt := none } 5 none =
      Except.error "NotFoundError" ∧
    (∃ db2, dbPut initDB "events"
        { id := "current", data := "events-payload", timestamp := 0,
          expiresAt := none } 5 none = Except.ok db2) ∧
    ("userData" ∈ initStores) = False :=
  ⟨rfl, ⟨_, rfl⟩, by simp [initStores]⟩

/-- C1 counterexample: a network failure on an auth-endpoint request does
not propagate to the caller unchanged; the fetch listener substitutes the
synthetic 503 `authUnavailableResp` for the rejection. -/
theorem C1_counterexample :
    fetchListenerApi
        { pathname := "/api/auth/login", url := "/api/auth/login",
          method := "POST", bodyText := "user=a", headers := [] }
        { net := NetResult.failure "Failed to fetch", cacheMatch := none,
          idbSnapshot := none } [] 0 "q1" =
      Except.ok
        { resp := authUnavailableResp, queue := [],
          snapshotWrite := none } ∧
    fetchListenerApi
        { pathname := "/api/auth/login", url := "/api/auth/login",
          method := "POST", bodyText := "user=a", headers := [] }
        { net := NetResult.failure "Failed to fetch", cacheMatch := none,
          idbSnapshot := none } [] 0 "q1" ≠
      Except.error "Failed to fetch" := by
  have h1 : fetchListenerApi
      { pathname := "/api/auth/login", url := "/api/auth/login",
        method := "POST", bodyText := "user=a", headers := [] }
      { net := NetResult.failure "Failed to fetch", cacheMatch := none,
        idbSnapshot := none } [] 0 "q1" =
      Except.ok
        { resp := authUnavailableResp, queue := [],
          snapshotWrite := none } := rfl
  refine ⟨h1, ?_⟩
  rw [h1]
  intro h
  cases h

/-- C1 (amended): an auth-endpoint request always attempts the network;
a successful fetch is returned verbatim, nothing is enqueued, and the
caller never observes a cached response, a queued body or `offline: true`
— but a network failure is answered with the synthetic 503
`authUnavailableResp` (`offline: false`) rather than the original
failure. -/
theorem C1_auth_no_masking (req : SWRequest) (env : SWEnv) (q : Queue)
    (now : Nat) (fid : String)
    (ha : isAuthEndpoint req.pathname = true) :
    (∀ st p, env.net = NetResult.response st p →
      fetchListenerApi req env q now fid =
        Except.ok
          { resp := netResp st p, queue := q, snapshotWrite := none }) ∧
    (∀ e, env.net = NetResult.failure e →
      fetchListenerApi req env q now fid =
        Except.ok
          { resp := authUnavailableResp, queue := q,
            snapshotWrite := none }) ∧
    (∀ o, fetchListenerApi req env q now fid = Except.ok o →
      o.queue = q ∧ jsonOffline o.resp ≠ some true ∧
      jsonQueued o.resp ≠ some true ∧
      o.resp.fromCacheHeader = false) := by
  refine ⟨?_, ?_, ?_⟩
  · intro st p hnet
    simp [fetchListenerApi, handleApiRequest, ha, hnet]
  · intro e hnet
    simp [fetchListenerApi, handleApiRequest, ha, hnet]
  · intro o hres
    cases hnet : env.net with
    | response st p =>
      rw [show fetchListenerApi req env q now fid =
          Except.ok
            { resp := netResp st p, queue := q, snapshotWrite := none }
        from by simp [fetchListenerApi, handleApiRequest, ha, hnet]] at hres
      cases hres
      simp [netResp, jsonOffline, jsonQueued]
    | failure e =>
      rw [show fetchListenerApi req env q now fid =
          Except.ok
            { resp := authUnavailableResp, queue := q,
              snapshotWrite := none }
        from by simp [fetchListenerApi, handleApiRequest, ha, hnet]] at hres
      cases hres
      simp [authUnavailableResp, jsonOffline, jsonQueued]

/-- Witness for C1 (amended) at a concrete auth login request. -/
theorem C1_auth_no_masking_witness :
    isAuthEndpoint "/api/auth/login" = true ∧
    (∀ e,
      ({ net := NetResult.failure "boom", cacheMatch := none,
         idbSnapshot := none } : SWEnv).net = NetResult.failure e →
      fetchListenerApi
          { pathname := "/api/auth/login", url := "/api/auth/login",
            method := "POST", bodyText := "", headers := [] }
          { net := NetResult.failure "boom", cacheMatch := none,
            idbSnapshot := none } [] 1 "f1" =
        Except.ok
          { resp := authUnavailableResp, queue := [],
            snapshotWrite := none }) :=
  ⟨by decide,
   (C1_auth_no_masking
      { pathname := "/api/auth/login", url := "/api/auth/login",
        method := "POST", bodyText := "", headers := [] }
      { net := NetResult.failure "boom", cacheMatch := none,
        idbSnapshot := none } [] 1 "f1" (by decide)).2.1⟩

/-- C3: a non-auth write request is attempted on the network; a 2xx
response is returned verbatim with nothing enqueued, and on a failed
attempt (rejected fetch or non-2xx response, the spec's `NetworkError`)
a `QueuedRequest` built from the request's method, url, body and headers
is appended to the offline queue and the synthetic 202 response with
`queued: true` is returned. -/
theorem C3_write_queueing (req : SWRequest) (env : SWEnv) (q : Queue)
    (now : Nat) (fid : String)
    (hna : isAuthEndpoint req.pathname = false)
    (hw : isWriteOp req.method = true) :
    (∀ st p, env.net = NetResult.response st p → respOk st = true →
      fetchListenerApi req env q now fid =
        Except.ok
          { resp := netResp st p, queue := q, snapshotWrite := none }) ∧
    (netFails env.net = true →
      ∃ item,
        fetchListenerApi req env q now fid =
          Except.ok
            { resp := queued202Resp, queue := q ++ [item],
              snapshotWrite := none } ∧
        item.data.method = req.method ∧ item.data.url = req.url ∧
        item.data.headers = req.headers ∧
        item.data.body =
          (if req.method == "DELETE" then none else some req.bodyText) ∧
        item.data.retryCount = 0) ∧
    queued202Resp.status = 202 ∧ jsonQueued queued202Resp = some true := by
  refine ⟨?_, ?_, rfl, rfl⟩
  · intro st p hnet hok
    simp [fetchListenerApi, handleApiRequest, hna, hw, hnet, hok]
  · intro hf
    cases hnet : env.net with
    | response st p =>
      rw [hnet] at hf
      have hf2 : respOk st = false := by simpa [netFails] using hf
      refine ⟨mkSwQueueItem req now fid, ?_, rfl, rfl, rfl, rfl, rfl⟩
      simp [fetchListenerApi, handleApiRequest, hna, hw, hnet, hf2,
        swQueueWrite]
    | failure e =>
      refine ⟨mkSwQueueItem req now fid, ?_, rfl, rfl, rfl, rfl, rfl⟩
      simp [fetchListenerApi, handleApiRequest, hna, hw, hnet,
        swQueueWrite]

/-- Witness for C3 at a concrete failed donation POST. -/
theorem C3_write_queueing_witness :
    isAuthEndpoint "/api/donations" = false ∧
    isWriteOp "POST" = true ∧
    (netFails (NetResult.failure "down") = true →
      ∃ item,
        fetchListenerApi
            { pathname := "/api/donations", url := "/api/donations",
              method := "POST", bodyText := "amount=5",
              headers := [("Authorization", "Bearer tok")] }
            { net := NetResult.failure "down", cacheMatch := none,
              idbSnapshot := none } [] 9 "w1" =
          Except.ok
            { resp := queued202Resp, queue := [] ++ [item],
              snapshotWrite := none } ∧
        item.data.method = "POST" ∧ item.data.url = "/api/donations" ∧
        item.data.headers = [("Authorization", "Bearer tok")] ∧
        item.data.body =
          (if ("POST" : String) == "DELETE" then none
            else some "amount=5") ∧
        item.data.retryCount = 0) :=
  ⟨by decide, by decide,
   (C3_write_queueing
      { pathname := "/api/donations", url := "/api/donations",
        method := "POST", bodyText := "amount=5",
        headers := [("Authorization", "Bearer tok")] }
      { net := NetResult.failure "down", cacheMatch := none,
        idbSnapshot := none } [] 9 "w1" (by decide) (by decide)).2.1⟩

/-- C6: a stored record whose `expiresAt` is set and lies strictly in the
past is treated as absent by `get` (deleted as a side effect) and omitted
and deleted by `getAll`; `store` only ever injects an absent or a
positive `expiresAt`, so the positivity hypotheses cover every record the
program can create (`expiresAt = 0` would be falsy in JS). -/
theorem C6_lazy_expiry (db : DB) (c : String) (l : List (Rec String))
    (r : Rec String) (e now : Nat)
    (hc : dbFind db c = some l)
    (hnd : (l.map (fun x => x.id)).Nodup)
    (hmem : r ∈ l) (he : r.expiresAt = some e) (h0 : 0 < e)
    (hlt : e < now) :
    dbGet db c r.id now =
      Except.ok (none, dbUpdate db c (deleteById l r.id)) ∧
    dbGetAll db c now =
      Except.ok (l.filter (fun x => !isExpired now x),
        dbUpdate db c (l.filter (fun x => !isExpired now x))) ∧
    r ∉ l.filter (fun x => !isExpired now x) ∧
    (∀ (l2 : List (Rec String)) (r2 : Rec String) (now2 : Nat)
        (ttl2 : Option Nat) (x : Rec String),
      x ∈ idbStore l2 r2 now2 ttl2 →
      x ∈ l2 ∨ x.expiresAt = none ∨
        ∃ e2, x.expiresAt = some e2 ∧ 0 < e2) := by
  have hfind := findById_of_mem hnd hmem
  have hexp := isExpired_of_past he h0 hlt
  refine ⟨?_, ?_, ?_, ?_⟩
  · simp [dbGet, hc, idbGet, hfind, hexp]
  · simp [dbGetAll, hc, idbGetAll]
  · simp [List.mem_filter, hexp]
  · intro l2 r2 now2 ttl2 x hx
    rcases mem_idbStore hx with h1 | h1
    · cases ttl2 with
      | none =>
        right; left
        simp [h1, ttlExpiry]
      | some t =>
        by_cases ht : t = 0
        · right; left
          simp [h1, ttlExpiry, ht]
        · right; right
          exact ⟨now2 + t * 60000, by simp [h1, ttlExpiry, ht],
            by omega⟩
    · exact Or.inl h1

/-- Snapshot fixture for the C6 witness: stored with
`expiresAt = 999 = now - 1` for a read at `now = 1000`. -/
def c6snap : Rec String :=
  { id := "current", data := "v", timestamp := 0, expiresAt := some 999 }

/-- Database fixture for the C6 witness. -/
def c6db : DB := [("events", [c6snap])]

/-- Witness for C6: a snapshot stored with `expiresAt = now - 1` is
absent on the next read at time `now = 1000`. -/
theorem C6_lazy_expiry_witness :
    dbFind c6db "events" = some [c6snap] ∧
    dbGet c6db "events" c6snap.id 1000 =
      Except.ok (none, dbUpdate c6db "events"
        (deleteById [c6snap] c6snap.id)) :=
  ⟨rfl,
   (C6_lazy_expiry c6db "events" [c6snap] c6snap 999 1000 rfl
      (by simp [c6snap]) (by simp [c6snap]) rfl (by decide)
      (by decide)).1⟩

/-- C7: `put(collection, record)` followed immediately by
`get(collection, record.id)` returns a value equal to the record modulo
the injected `timestamp` and `expiresAt` fields. -/
theorem C7_roundtrip (db : DB) (c : String) (r : Rec String) (now : Nat)
    (ttl : Option Nat) (db2 : DB)
    (h : dbPut db c r now ttl = Except.ok db2) :
    ∃ r2 db3, dbGet db2 c r.id now = Except.ok (some r2, db3) ∧
      r2.id = r.id ∧ r2.data = r.data := by
  unfold dbPut at h
  cases hf : dbFind db c with
  | none =>
    rw [hf] at h
    cases h
  | some l =>
    rw [hf] at h
    injection h with h2
    subst h2
    have hfind : dbFind (dbUpdate db c (idbStore l r now ttl)) c =
        some (idbStore l r now ttl) := dbFind_dbUpdate_self hf _
    have hfd : findById (idbStore l r now ttl) r.id =
        some { r with timestamp := now, expiresAt := ttlExpiry now ttl } :=
      findById_upsertById l
        { r with timestamp := now, expiresAt := ttlExpiry now ttl }
    refine ⟨{ r with timestamp := now, expiresAt := ttlExpiry now ttl },
      dbUpdate (dbUpdate db c (idbStore l r now ttl)) c
        (idbStore l r now ttl), ?_, rfl, rfl⟩
    simp [dbGet, hfind, idbGet, hfd, isExpired_after_store]

/-- Record fixture for the C7 witness. -/
def c7snap : Rec String :=
  { id := "current", data := "v", timestamp := 0, expiresAt := none }

/-- Database fixture for the C7 witness: `initDB` after the put. -/
def c7db : DB :=
  dbUpdate initDB "events" (idbStore [] c7snap 10 (some 60))

/-- Witness for C7: store and immediately re-read the `events` snapshot
with a one-hour TTL. -/
theorem C7_roundtrip_witness :
    dbPut initDB "events" c7snap 10 (some 60) = Except.ok c7db ∧
    (∃ r2 db3,
      dbGet c7db "events" c7snap.id 10 = Except.ok (some r2, db3) ∧
      r2.id = c7snap.id ∧ r2.data = c7snap.data) :=
  ⟨rfl, C7_roundtrip initDB "events" c7snap 10 (some 60) c7db rfl⟩

/-- Queue-item fixture for C9: exactly the shape `queueDonation`
enqueues (`offlineQueue.ts` lines 280-288). -/
def c9item : Rec QPayload :=
  { id := "q1",
    data :=
      { url := "/api/donations", method := "POST",
        body := some "amount=10",
        headers := [("Authorization", "Bearer tok")],
        retryCount := 0, maxRetries := some 3,
        qtype := Category.donations },
    timestamp := 0, expiresAt := none }

/-- C9 counterexample: the replayed request is not verbatim — a
`Content-Type: application/json` header is merged in under the stored
headers, so a queued donation (whose stored headers are only the bearer
token) is re-issued with an extra header. -/
theorem C9_counterexample :
    (executeRequest c9item).headers ≠ c9item.data.headers := by
  decide

/-- C9 (amended): each per-item drain attempt re-issues the stored
method and url, the stored body when it is non-empty and the method is
not GET, and the stored headers merged over a default
`Content-Type: application/json` header (stored headers win); on a 2xx
response the item is removed from the store and a success notification
carrying its id, category, url and method is emitted. -/
theorem C9_drain_attempt (q : Queue) (item : Rec QPayload)
    (oracle : FetchOracle) (now st : Nat)
    (hresp : oracle (executeRequest item) = FetchOutcome.response st)
    (hok : respOk st = true) :
    processQueueItem q item oracle now =
      (deleteById q item.id,
       [QueueEvent.success item.id item.data.qtype item.data.url
          item.data.method]) ∧
    (executeRequest item).method = item.data.method ∧
    (executeRequest item).url = item.data.url ∧
    (executeRequest item).headers =
      mergeHeaders [("Content-Type", "application/json")]
        item.data.headers ∧
    (executeRequest item).body =
      (if bodyTruthy item.data.body && !(item.data.method == "GET")
        then item.data.body else none) := by
  refine ⟨?_, rfl, rfl, rfl, rfl⟩
  simp [processQueueItem, hresp, hok]

/-- Witness for C9 (amended) at a concrete donation replay answered
with HTTP 200. -/
theorem C9_drain_attempt_witness :
    (fun _ : HttpRequest => FetchOutcome.response 200)
        (executeRequest c9item) = FetchOutcome.response 200 ∧
    respOk 200 = true ∧
    processQueueItem [c9item] c9item
        (fun _ : HttpRequest => FetchOutcome.response 200) 1 =
      (deleteById [c9item] c9item.id,
       [QueueEvent.success c9item.id c9item.data.qtype c9item.data.url
          c9item.data.method]) :=
  ⟨rfl, by decide,
   (C9_drain_attempt [c9item] c9item
      (fun _ : HttpRequest => FetchOutcome.response 200) 1 200 rfl
      (by decide)).1⟩

/-- C10: every record placed in the `offlineQueue` collection — by the
manager's enqueue, by the retry path's re-store, or by the service
worker's own enqueue — carries no TTL (`expiresAt` is unset), and the
expiry filter of `get`/`getAll` therefore never drops a queue record:
`getAll` returns the queue unchanged and `get` performs no deletion. -/
theorem C10_queue_never_expires (q : Queue) (url method : String)
    (body : Option String) (headers : List (String × String))
    (qt : Category) (cfg : Option Nat) (onl : Bool) (now : Nat)
    (fid : String) (item : Rec QPayload) (req : SWRequest)
    (hall : ∀ x ∈ q, x.expiresAt = none) :
    (∀ x ∈ (addToQueue q url method body headers qt cfg onl now fid).1,
      x.expiresAt = none) ∧
    (∀ x ∈ (handleRetry q item now).1, x.expiresAt = none) ∧
    (∀ x ∈ (swQueueWrite req q now fid).2, x.expiresAt = none) ∧
    idbGetAll q now = (q, q) ∧
    (∀ i, idbGet q i now = (findById q i, q)) := by
  refine ⟨?_, ?_, ?_, idbGetAll_of_none_expiry now hall, ?_⟩
  · intro x hx
    simp only [addToQueue] at hx
    rcases mem_idbStore hx with h1 | h1
    · simp [h1, ttlExpiry]
    · exact hall x h1
  · intro x hx
    by_cases hex : effMaxRetries item ≤ item.data.retryCount
    · simp only [handleRetry, if_pos hex] at hx
      exact hall x (mem_deleteById hx).1
    · simp only [handleRetry, if_neg hex] at hx
      rcases mem_idbStore hx with h1 | h1
      · simp [h1, ttlExpiry]
      · exact hall x h1
  · intro x hx
    simp only [swQueueWrite, List.mem_append, List.mem_singleton] at hx
    rcases hx with h1 | h1
    · exact hall x h1
    · simp [h1, mkSwQueueItem]
  · intro i
    cases hf : findById q i with
    | none => simp [idbGet, hf]
    | some r =>
      have hr : r.expiresAt = none := hall r (findById_some hf).1
      simp [idbGet, hf, isExpired_of_none now hr]

/-- Witness for C10 on the singleton queue holding the C9 fixture. -/
theorem C10_queue_never_expires_witness :
    (∀ x ∈ [c9item], x.expiresAt = none) ∧
    (∀ x ∈ (handleRetry [c9item] c9item 4).1, x.expiresAt = none) ∧
    idbGetAll [c9item] 4 = ([c9item], [c9item]) :=
  ⟨by decide,
   (C10_queue_never_expires [c9item] "u" "POST" none [] Category.general
      none false 4 "f" c9item
      { pathname := "/p", url := "/p", method := "POST", bodyText := "",
        headers := [] } (by decide)).2.1,
   (C10_queue_never_expires [c9item] "u" "POST" none [] Category.general
      none false 4 "f" c9item
      { pathname := "/p", url := "/p", method := "POST", bodyText := "",
        headers := [] } (by decide)).2.2.2.1⟩

/-- Queue item enqueued with the explicit retry config
`maxRetries = 0`, as stored by `addToQueue`. -/
def c2item0 : Rec QPayload :=
  { id := "id0",
    data :=
      { url := "/api/donate", method := "POST", body := some "a=1",
        headers := [], retryCount := 0, maxRetries := some 0,
        qtype := Category.general },
    timestamp := 7, expiresAt := none }

/-- The same item after one failed replay attempt. -/
def c2item1 : Rec QPayload :=
  { id := "id0",
    data :=
      { url := "/api/donate", method := "POST", body := some "a=1",
        headers := [], retryCount := 1, maxRetries := some 0,
        qtype := Category.general },
    timestamp := 8, expiresAt := none }

/-- C2 counterexample: `item.maxRetries || 3` treats an explicit
`maxRetries = 0` as falsy, so after one failed replay the item stays in
the store with `retryCount = 1 > maxRetries = 0`, and a retry is
scheduled instead of the removal and failure signal the claim
requires. -/
theorem C2_counterexample :
    (addToQueue [] "/api/donate" "POST" (some "a=1") [] Category.general
        (some 0) false 7 "id0").1 = [c2item0] ∧
    handleRetry [c2item0] c2item0 8 =
      ([c2item1], [QueueEvent.scheduledRetry "id0" 1000]) ∧
    c2item1.data.retryCount = 1 ∧ c2item1.data.maxRetries = some 0 ∧
    ¬ c2item1.data.retryCount ≤ 0 := by
  refine ⟨rfl, ?_, rfl, rfl, by decide⟩
  decide

theorem effMaxRetries_mk (item : Rec QPayload) (now : Nat)
    (ttl : Option Nat) :
    effMaxRetries { item with timestamp := now, expiresAt := ttlExpiry now ttl } = effMaxRetries item := rfl

theorem effMaxRetries_bump (item : Rec QPayload) :
    effMaxRetries (bumpRetry item) = effMaxRetries item := rfl

/-- C2 (amended): with the effective limit the code actually enforces —
the item's `maxRetries` when set and non-zero, else the default 3 —
`retryCount <= effMaxRetries` is preserved by the retry path,
`retryCount` never decreases for a surviving item, an item whose
`retryCount` has reached the effective limit is removed with a failure
event instead of being incremented, and enqueue starts items at
`retryCount = 0`.  For every item this repository enqueues
(`maxRetries` 3 or absent) the effective limit coincides with the
claim's `maxRetries`. -/
theorem C2_retry_bound (q : Queue) (item : Rec QPayload) (now : Nat)
    (hnd : (q.map (fun x => x.id)).Nodup) (hmem : item ∈ q)
    (hinv : ∀ x ∈ q, x.data.retryCount ≤ effMaxRetries x) :
    (∀ x ∈ (handleRetry q item now).1,
      x.data.retryCount ≤ effMaxRetries x) ∧
    (∀ x ∈ q, ∀ y ∈ (handleRetry q item now).1, y.id = x.id →
      x.data.retryCount ≤ y.data.retryCount) ∧
    (effMaxRetries item ≤ item.data.retryCount →
      handleRetry q item now =
        (deleteById q item.id,
         [QueueEvent.failure item.id item.data.qtype item.data.url
            item.data.method item.data.retryCount])) ∧
    (∀ url method body headers qt cfg onl now2 fid,
      ∀ x ∈ (addToQueue q url method body headers qt cfg onl now2 fid).1,
        x.data.retryCount ≤ effMaxRetries x) := by
  refine ⟨?_, ?_, ?_, ?_⟩
  · intro x hx
    by_cases hex : effMaxRetries item ≤ item.data.retryCount
    · simp only [handleRetry, if_pos hex] at hx
      exact hinv x (mem_deleteById hx).1
    · simp only [handleRetry, if_neg hex] at hx
      rcases mem_idbStore hx with h1 | h1
      · rw [h1, effMaxRetries_mk, effMaxRetries_bump]
        show item.data.retryCount + 1 ≤ effMaxRetries item
        omega
      · exact hinv x h1
  · intro x hx y hy hid
    by_cases hex : effMaxRetries item ≤ item.data.retryCount
    · simp only [handleRetry, if_pos hex] at hy
      have hyq := (mem_deleteById hy).1
      have : y = x := uniqueId_of_nodup hnd hyq hx hid
      rw [this]
    · simp only [handleRetry, if_neg hex] at hy
      rcases mem_idbStore hy with h1 | h1
      · have hidm : item.id = x.id := by
          rw [← hid, h1]
          rfl
        have hix : item = x := uniqueId_of_nodup hnd hmem hx hidm
        rw [h1, ← hix]
        show item.data.retryCount ≤ item.data.retryCount + 1
        omega
      · have : y = x := uniqueId_of_nodup hnd h1 hx hid
        rw [this]
  · intro hex
    simp [handleRetry, hex]
  · intro url method body headers qt cfg onl now2 fid x hx
    simp only [addToQueue] at hx
    rcases mem_idbStore hx with h1 | h1
    · rw [h1]
      exact Nat.zero_le _
    · exact hinv x h1

/-- Witness for C2 (amended) on a singleton queue holding the C9
fixture (`maxRetries = 3`, `retryCount = 0`). -/
theorem C2_retry_bound_witness :
    ([c9item].map (fun x => x.id)).Nodup ∧ c9item ∈ [c9item] ∧
    (∀ x ∈ [c9item], x.data.retryCount ≤ effMaxRetries x) ∧
    (∀ x ∈ (handleRetry [c9item] c9item 9).1,
      x.data.retryCount ≤ effMaxRetries x) :=
  ⟨by decide, by decide, by decide,
   (C2_retry_bound [c9item] c9item 9 (by decide) (by decide)
      (by decide)).1⟩

/-- App-state fixture for C5: offline, no drain in progress, empty
queue. -/
def c5state : AppState :=
  { offline :=
      { isOnline := false, syncInProgress := false, queuedRequests := 0,
        lastSyncTime := none },
    mgrOnline := false, queue := [] }

/-- C5 counterexample: one transition to online invokes the queue drain
twice, not exactly once — the queue manager's own `online` listener calls
`processQueue` with no guard, and the App store's `setOnlineStatus` path
then drains again through `syncOfflineData`. -/
theorem C5_counterexample :
    (windowOnlineEvent c5state (fun _ => FetchOutcome.netError "down")
        3).2.2 = 2 ∧
    ¬ (windowOnlineEvent c5state (fun _ => FetchOutcome.netError "down")
        3).2.2 = 1 := by
  have h2 : (windowOnlineEvent c5state
      (fun _ => FetchOutcome.netError "down") 3).2.2 = 2 := rfl
  refine ⟨h2, ?_⟩
  rw [h2]
  decide

/-- C5 (amended): `processQueue()` is a no-op while offline, and the App
store's drain path is guarded by `syncInProgress` — a `syncOfflineData`
call while a drain is in progress is a no-op, and a guarded
`setOnlineStatus(true)` performs exactly one drain — but a browser
`online` transition also triggers the queue manager's own unguarded
listener, so the drain is invoked twice per transition, not exactly
once. -/
theorem C5_drain_guard (q : Queue) (oracle : FetchOracle) (now : Nat)
    (s s2 : AppState)
    (hsync : s.offline.syncInProgress = true)
    (hns : s2.offline.syncInProgress = false) :
    processQueue false q oracle now = (q, []) ∧
    syncOfflineData s oracle now = (s, [], 0) ∧
    (setOnlineStatus s2 true oracle now).2.2 = 1 ∧
    (windowOnlineEvent s2 oracle now).2.2 = 2 := by
  refine ⟨?_, ?_, ?_, ?_⟩
  · simp [processQueue]
  · simp [syncOfflineData, hsync]
  · simp [setOnlineStatus, syncOfflineData, hns]
  · simp [windowOnlineEvent, managerOnlineHandler, setOnlineStatus,
      syncOfflineData, hns]

/-- Witness for C5 (amended) at concrete states: `c5state` with the
guard raised for the no-op conjunct, `c5state` itself for the
transition conjuncts. -/
theorem C5_drain_guard_witness :
    processQueue false [c9item] (fun _ => FetchOutcome.netError "down")
        6 = ([c9item], []) ∧
    (windowOnlineEvent c5state (fun _ => FetchOutcome.netError "down")
        6).2.2 = 2 := by
  have h := C5_drain_guard [c9item]
    (fun _ => FetchOutcome.netError "down") 6
    { c5state with offline := { c5state.offline with
        syncInProgress := true } }
    c5state rfl rfl
  exact ⟨h.1, h.2.2.2⟩

end Masjeed
